import Mathlib

/-!
Shallow embedding of `CustomSpanProcessor`
(src/ObservabilitySystem/CustomAutoInstrumentation/extensions/custom_span_processor.py)
together with the state of its exporter collaborator, and proofs about the
processor's hooks, classification policy, shutdown and flush discipline.

Modelling conventions:

* A Python exception is an `Except` error; a `try/except` block is a `match`
  that turns the error branch back into normal control flow (the handlers in
  the source only log).  For `on_start`, whose body mutates the span object in
  place, the error value carries the span state at the raise point, so partial
  mutation survives the handler.
* Span fields the source guards with `hasattr`/truthiness tests are `Option`s
  plus truthiness flags; operations that can raise on malformed inputs
  (`span.set_attribute`, `resource.attributes.get`, and the unguarded
  `span.status.status_code` access while building `span_dict` in `on_end`)
  carry explicit raise flags.
* `status_code` is embedded numerically with the OpenTelemetry encoding
  UNSET = 0, OK = 1, ERROR = 2, matching the source comparison
  `span.status.status_code != 0` (line 93).
* Timestamps are integer nanoseconds (as in the SDK).  Python true division
  `/ 1_000_000` (line 82) is embedded as exact division in `ℚ`; for integer
  nanosecond differences the float comparison `duration > 100` agrees with
  the exact rational comparison, since the quotient of any integer strictly
  between thresholds stays on the same side of 100 after rounding to the
  nearest double.
* The exporter is an opaque collaborator (spec section 6).  For `on_end` the
  observable is the list of `export` batches the hook issues, and whether each
  `export` call raises is a flag in `ExpBeh`.  For `shutdown` the observable
  is the state of the `InMemorySpanExporter` the constructor installs: a
  `stopped` flag plus the list of finished spans (its `shutdown` sets the
  flag; a hypothetical raising exporter is modelled by a flag as well).
-/

namespace CustomSpanProcessor

/-- A scalar attribute value of a span or resource attribute mapping. -/
inductive AttrVal where
  | str (s : String)
  | int (n : Int)
  | bool (b : Bool)
deriving DecidableEq

/-- Python truthiness of an attribute value (`if service_name:` at line 37). -/
def AttrVal.truthy : AttrVal → Bool
  | .str s => !s.isEmpty
  | .int n => n != 0
  | .bool b => b

/-- The resource object reachable as `span.resource`.  `truthyRes` is the
truthiness test `and span.resource` (lines 33, 59); `hasAttributesAttr` is
`hasattr(span.resource, "attributes")` (lines 34, 59); `getRaises` models a
malformed attribute mapping whose lookup / conversion raises (lines 36, 59). -/
structure Resource where
  truthyRes : Bool
  hasAttributesAttr : Bool
  attributes : List (String × AttrVal)
  getRaises : Bool
deriving DecidableEq

/-- The status object reachable as `span.status`.  `truthySt` is the
truthiness test `and span.status` (lines 57, 92); `hasStatusCode` is
`hasattr(span.status, "status_code")` (line 92); `code` is the numeric
OpenTelemetry status code: UNSET = 0, OK = 1, ERROR = 2. -/
structure PyStatus where
  truthySt : Bool
  hasStatusCode : Bool
  code : Nat
deriving DecidableEq

/-- The span object handed to the hooks.  `isReadable` is
`isinstance(span, ReadableSpan)` (line 47); timestamps are optional integer
nanoseconds (`None` makes the subtraction at line 82 raise); `status` and
`resource` are `none` when the attribute is missing or `None`;
`setAttrRaises` models a span object whose `set_attribute` raises. -/
structure PySpan where
  isReadable : Bool
  name : String
  start_time : Option Int
  end_time : Option Int
  status : Option PyStatus
  resource : Option Resource
  attributes : List (String × AttrVal)
  setAttrRaises : Bool
deriving DecidableEq

/-- Python `dict.get`: the last binding of a key wins (the attribute lists are
dict snapshots where a later `set_attribute` of the same key overwrites). -/
def pyDictGet (l : List (String × AttrVal)) (k : String) : Option AttrVal :=
  (l.reverse.find? (fun p => p.1 == k)).map (fun p => p.2)

/-- `span.set_attribute(key, value)` (lines 27, 28, 38): appends/overwrites the
binding, or raises on a malformed span object. -/
def set_attribute (s : PySpan) (k : String) (v : AttrVal) : Except PySpan PySpan :=
  if s.setAttrRaises then .error s
  else .ok { s with attributes := s.attributes ++ [(k, v)] }

/-- A Python `except` handler that only logs: both outcomes continue with the
current span state. -/
def pyTry (x : Except PySpan PySpan) : PySpan :=
  match x with
  | .ok s => s
  | .error s => s

/-- A top-level `try/except` boundary of a hook: the handler logs and returns,
so the caller never sees an exception. -/
def catch_all (x : Except PySpan PySpan) : Except Unit PySpan :=
  match x with
  | .ok s => .ok s
  | .error s => .ok s

/-- Lines 32-38: the resource-attribute block of `on_start`, inside its own
`try` (its `except` at lines 39-40 is applied by the caller via `pyTry`). -/
def on_start_resource_block (s : PySpan) : Except PySpan PySpan :=
  match s.resource with
  | some r =>
    if r.truthyRes then
      if r.hasAttributesAttr then
        if r.getRaises then .error s
        else
          match pyDictGet r.attributes "service.name" with
          | some v => if v.truthy then set_attribute s "custom.service" v else .ok s
          | none => .ok s
      else .ok s
    else .ok s
  | none => .ok s

/-- Lines 25-40: the body of `on_start` inside the outer `try`: two
`set_attribute` calls whose exceptions propagate to the outer handler, then
the resource block with its own logging handler. -/
def on_start_body (s : PySpan) : Except PySpan PySpan :=
  match set_attribute s "custom.processed" (.bool true) with
  | .error s1 => .error s1
  | .ok s1 =>
    match set_attribute s1 "custom.processor.version" (.str "1.0.0") with
    | .error s2 => .error s2
    | .ok s2 => .ok (pyTry (on_start_resource_block s2))

/-- Lines 23-42: `on_start`, with the outer `except` (lines 41-42) that only
logs, so no exception reaches the caller. -/
def on_start (s : PySpan) : Except Unit PySpan :=
  catch_all (on_start_body s)

/-- Line 82: `duration = (span.end_time - span.start_time) / 1_000_000`.
`none` when a timestamp is missing, in which case the subtraction raises and
the `except` at lines 87-88 swallows it. -/
def duration_ms (s : PySpan) : Option ℚ :=
  match s.start_time, s.end_time with
  | some st, some en => some (((en - st : ℤ) : ℚ) / 1000000)
  | _, _ => none

/-- The two log-only classifications `_should_process_span` performs:
`slowLogged` is the "Slow operation detected" log (line 86), `erroredLogged`
the "Error detected in span" log (line 95). -/
structure Classification where
  slowLogged : Bool
  erroredLogged : Bool
deriving DecidableEq

/-- Lines 75-103: `_should_process_span`.  The duration block (78-88) and the
status block (91-97) each swallow their own exceptions; the function returns
`True` on every path (lines 100 and 103).  The result pairs that return value
with the classifications that were logged. -/
def should_process_span (s : PySpan) : Bool × Classification :=
  let slow :=
    match duration_ms s with
    | some d => decide (d > 100)
    | none => false
  let errored :=
    match s.status with
    | some st => st.truthySt && st.hasStatusCode && (st.code != 0)
    | none => false
  (true, ⟨slow, errored⟩)

/-- Behavior of the exporter collaborator during one `on_end` call: whether
its first and (fallback) second `export` invocation raise. -/
structure ExpBeh where
  raise1 : Bool
  raise2 : Bool
deriving DecidableEq

/-- Whether building `span_dict` (lines 53-60) raises: the unguarded
`span.status.status_code` access at line 57 raises when the status is truthy
but has no `status_code`; `dict(span.resource.attributes)` at line 59 raises
when the guarded-to-exist attribute mapping is malformed. -/
def span_dict_raises (s : PySpan) : Bool :=
  (match s.status with
   | some st => st.truthySt && !st.hasStatusCode
   | none => false)
  || (match s.resource with
      | some r => r.truthyRes && r.hasAttributesAttr && r.getRaises
      | none => false)

/-- One `self._exporter.export([span])` call: the batch is recorded in the
call trace whether or not the call raises. -/
def export_call (raises : Bool) (calls : List (List PySpan)) (batch : List PySpan) :
    Except (List (List PySpan)) (List (List PySpan)) :=
  if raises then .error (calls ++ [batch]) else .ok (calls ++ [batch])

/-- Lines 50-71: the filtering `try` of `on_end` (51-64) and its handler
(65-71), which re-attempts the export and swallows the second failure.
The value is the trace of `export` calls issued. -/
def on_end_inner (b : ExpBeh) (s : PySpan) : List (List PySpan) :=
  let attempt : Except (List (List PySpan)) (List (List PySpan)) :=
    if (should_process_span s).1 then
      if span_dict_raises s then .error []
      else export_call b.raise1 [] [s]
    else .ok []
  match attempt with
  | .ok calls => calls
  | .error calls =>
    match export_call b.raise2 calls [s] with
    | .ok c => c
    | .error c => c

/-- Lines 44-73: `on_end`.  Non-`ReadableSpan` inputs return at line 48 with
no export.  The hook never mutates the span (line 63 comment: ReadableSpan
attributes cannot be modified), so the result carries the input span
unchanged next to the export-call trace; the outer `except` (72-73) is the
reason the return type could carry an error, which no path produces. -/
def on_end (b : ExpBeh) (s : PySpan) : Except Unit (PySpan × List (List PySpan)) :=
  if s.isReadable then .ok (s, on_end_inner b s) else .ok (s, [])

/-- Two successive `on_end` calls on the same span: the concatenated trace of
export calls both invocations issue. -/
def on_end_twice (b : ExpBeh) (s : PySpan) : List (List PySpan) :=
  match on_end b s with
  | .ok (s1, c1) =>
    (match on_end b s1 with
     | .ok (_, c2) => c1 ++ c2
     | .error _ => c1)
  | .error _ => []

/-- State of the `InMemorySpanExporter` the constructor installs (line 20):
the collected finished spans and the `_stopped` flag. -/
structure ExpState where
  finished_spans : List PySpan
  stopped : Bool
deriving DecidableEq

/-- `InMemorySpanExporter.shutdown` (collaborator): sets `_stopped`; it never
raises and is idempotent by itself. -/
def inmem_shutdown (st : ExpState) : ExpState := { st with stopped := true }

/-- Lines 105-112: `shutdown`.  The `hasattr(self, '_exporter')` guard is
always satisfied after construction (line 20).  `shRaises` models a
hypothetical exporter whose `shutdown` raises (before taking effect); the
`except` at lines 111-112 logs and returns, so the caller never sees it. -/
def shutdown (shRaises : Bool) (st : ExpState) : Except Unit ExpState :=
  match (if shRaises then Except.error st
         else Except.ok (inmem_shutdown st) : Except ExpState ExpState) with
  | .ok st2 => .ok st2
  | .error st2 => .ok st2

/-- Behavior of the exporter collaborator during one `force_flush` call:
whether its `force_flush` raises, and the Python bool it returns otherwise
(the installed `InMemorySpanExporter` inherits the base `force_flush`, which
returns `True`). -/
structure FlushBeh where
  raises : Bool
  result : Bool
deriving DecidableEq

/-- A Python bool as the int it compares equal to (`True == 1`, `False == 0`). -/
def pyBool (b : Bool) : Nat := if b then 1 else 0

/-- Python truthiness of an int result: `0` is falsy.  Under the SDK
`SpanProcessor.force_flush -> bool` contract a falsy result reads as flush
failure. -/
def pyTruthy (n : Nat) : Bool := n != 0

/-- Lines 114-122: `force_flush`.  Returns the exporter's result when the
exporter is present and does not raise; returns `0` when the exporter is
absent (line 119) or when anything raises (lines 120-122). -/
def force_flush (hasExp : Bool) (fb : FlushBeh) (timeout_millis : Nat) : Except Unit Nat :=
  match (if hasExp then
           (if fb.raises then Except.error () else Except.ok (pyBool fb.result))
         else Except.ok 0 : Except Unit Nat) with
  | .ok v => .ok v
  | .error _ => .ok 0

/-- Refinement-comparison definition following the claim wording of C4, "end
timestamp minus start timestamp in whole milliseconds": the floored integer
millisecond count, as Python floor division would give.  Not part of the
source embedding. -/
def spec_duration_whole_ms (s : PySpan) : Option Int :=
  match s.start_time, s.end_time with
  | some st, some en => some (Int.fdiv (en - st) 1000000)
  | _, _ => none

/-- Refinement-comparison definition following the claim wording of C4:
"slow" exactly when the whole-millisecond duration exceeds 100 ms. -/
def spec_slow_whole_ms (s : PySpan) : Bool :=
  match spec_duration_whole_ms s with
  | some d => decide (d > 100)
  | none => false

/-- Concrete malformed-exporter-free behavior: neither export call raises. -/
def behOk : ExpBeh := ⟨false, false⟩

theorem catch_all_isOk (x : Except PySpan PySpan) : (catch_all x).isOk = true := by
  cases x <;> rfl

/-- Claim C1: for every span input, malformed ones included (missing resource,
missing status, absent timestamps, raising accessors), and every exporter
behavior, `on_start` and `on_end` return normally: every internal error is
caught inside the hook and nothing propagates to the caller. -/
theorem hooks_never_raise (s : PySpan) (b : ExpBeh) :
    (on_start s).isOk = true ∧ (on_end b s).isOk = true := by
  refine ⟨catch_all_isOk _, ?_⟩
  unfold on_end
  split <;> rfl

/-- Claim C3 is a code bug, witnessed here: a span whose status is OK (numeric
status code 1, the spec example "start=0ms, end=50ms, status=OK") is logged as
errored by `_should_process_span`, because line 93 tests `status_code != 0`
and OK is non-zero; the claim and the spec say errored holds only for ERROR. -/
def okStatusSpan : PySpan :=
  { isReadable := true, name := "ok-span", start_time := some 0,
    end_time := some 50000000, status := some ⟨true, true, 1⟩,
    resource := none, attributes := [], setAttrRaises := false }

/-- Claim C3 (code bug evaluation): the code classifies the OK-status span as
errored, contradicting "errored if and only if status is ERROR". -/
theorem ok_status_logged_as_errored :
    (should_process_span okStatusSpan).2.erroredLogged = true := rfl

/-- Claim C5: `force_flush` returns a value for every exporter behavior and
timeout value, never an exception (the body is inside a catch-all, lines
116-122).  When the exporter's flush raises, the hook returns `0`: under the
SDK `force_flush -> bool` contract `0` is falsy, i.e. a failure indication,
and it is distinguishable from the success path, which returns the exporter's
`True` (= 1).  (The source comments at lines 119 and 122 call `0` "success";
the returned value itself reads as failure to any caller applying the SDK's
boolean convention.) -/
theorem force_flush_returns_failure_value (hasExp : Bool) (fb : FlushBeh) (t : Nat) :
    (force_flush hasExp fb t).isOk = true ∧
    (fb.raises = true → force_flush hasExp fb t = .ok 0) ∧
    (hasExp = true → fb.raises = false →
      force_flush hasExp fb t = .ok (pyBool fb.result)) ∧
    pyTruthy 0 = false ∧ pyTruthy (pyBool true) = true := by
  cases hasExp <;> cases hfr : fb.raises <;>
    simp [force_flush, pyBool, pyTruthy, hfr, Except.isOk, Except.toBool]

/-- Claim C5 witness: with a present exporter whose flush raises, the hook
returns `0` (failure value); with one whose flush succeeds returning `True`,
it returns `1`. -/
theorem force_flush_returns_failure_value_witness :
    force_flush true ⟨true, true⟩ 30000 = .ok 0 ∧
      force_flush true ⟨false, true⟩ 30000 = .ok (pyBool true) :=
  ⟨(force_flush_returns_failure_value true ⟨true, true⟩ 30000).2.1 rfl,
   (force_flush_returns_failure_value true ⟨false, true⟩ 30000).2.2.1 rfl rfl⟩

/-- Claim C6: `shutdown` is idempotent — running it twice from any exporter
state yields exactly the state of running it once (for the installed
`InMemorySpanExporter`, whose own shutdown just sets the stopped flag) — and
it never throws on either call, even for a hypothetical exporter whose
shutdown raises (the raise is caught at lines 111-112). -/
theorem shutdown_idempotent_never_throws (st : ExpState) (shRaises : Bool) :
    (shutdown shRaises st).bind (shutdown shRaises) = shutdown shRaises st ∧
      (shutdown shRaises st).isOk = true := by
  cases shRaises <;>
    simp [shutdown, inmem_shutdown, Except.bind, Except.isOk, Except.toBool]

/-- Claim C10: an input that is not a `ReadableSpan` makes `on_end` return at
line 48: no classification, no export call, no exception, record untouched. -/
theorem on_end_non_readable (b : ExpBeh) (s : PySpan) (h : s.isReadable = false) :
    on_end b s = .ok (s, []) := by
  simp [on_end, h]

/-- A concrete non-`ReadableSpan` input. -/
def notASpan : PySpan :=
  { isReadable := false, name := "not-a-span", start_time := none,
    end_time := none, status := none, resource := none, attributes := [],
    setAttrRaises := false }

/-- Claim C10 witness: the concrete non-readable input is silently discarded. -/
theorem on_end_non_readable_witness :
    notASpan.isReadable = false ∧ on_end behOk notASpan = .ok (notASpan, []) :=
  ⟨rfl, on_end_non_readable behOk notASpan rfl⟩

/-- With a readable span and a non-raising exporter, `on_end` issues exactly
one export call containing exactly the span — whichever classification holds
and even when building `span_dict` raises (the handler at lines 65-71 then
issues the one export). -/
theorem on_end_trace_eval (b : ExpBeh) (s : PySpan) (hr : s.isReadable = true)
    (h1 : b.raise1 = false) (h2 : b.raise2 = false) :
    on_end b s = .ok (s, [[s]]) := by
  unfold on_end on_end_inner export_call
  cases hd : span_dict_raises s <;>
    simp [hr, h1, h2, hd, should_process_span]

/-- Claim C2: every readable span handed to `on_end` is forwarded to the
exporter in exactly one `export` call containing exactly that span,
regardless of its classification (slow, errored, normal), and even when an
exception occurs during the classification/serialization block the span is
still forwarded (fail-open) — provided the exporter's own `export` does not
raise. -/
theorem on_end_forwards_exactly_once (b : ExpBeh) (s : PySpan)
    (hr : s.isReadable = true) (h1 : b.raise1 = false) (h2 : b.raise2 = false) :
    on_end b s = .ok (s, [[s]]) :=
  on_end_trace_eval b s hr h1 h2

/-- A concrete span whose `span_dict` construction raises (truthy status
without a `status_code` attribute): classification fails mid-way. -/
def dictRaisingSpan : PySpan :=
  { isReadable := true, name := "op", start_time := some 0,
    end_time := some 50000000, status := some ⟨true, false, 1⟩,
    resource := none, attributes := [], setAttrRaises := false }

/-- Claim C2 witness: even for the span whose classification block raises,
exactly one export call is issued. -/
theorem on_end_forwards_exactly_once_witness :
    dictRaisingSpan.isReadable = true ∧ behOk.raise1 = false ∧
      behOk.raise2 = false ∧
      on_end behOk dictRaisingSpan = .ok (dictRaisingSpan, [[dictRaisingSpan]]) :=
  ⟨rfl, rfl, rfl, on_end_forwards_exactly_once behOk dictRaisingSpan rfl rfl rfl⟩

/-- A concrete already-ended span (ERROR status, both timestamps set). -/
def endedSpan : PySpan :=
  { isReadable := true, name := "ended", start_time := some 0,
    end_time := some 50000000, status := some ⟨true, true, 2⟩,
    resource := none, attributes := [], setAttrRaises := false }

/-- Claim C7 counterexample: the processor keeps no record of ended spans, so
a second `on_end` on the same already-ended span issues a second export call
— the trace of two calls is `[[endedSpan], [endedSpan]]`, not the single-call
trace a detected no-op would leave. -/
theorem on_end_twice_counterexample :
    on_end_twice behOk endedSpan = [[endedSpan], [endedSpan]] ∧
      on_end_twice behOk endedSpan ≠ [[endedSpan]] := by
  refine ⟨rfl, ?_⟩
  decide

/-- Claim C7 amended: a second `on_end` on the same span is not detected:
with a non-raising exporter each of the two calls forwards the span once
(two export calls in total), while the frozen record itself stays unchanged
(`on_end` carries the span through unmodified). -/
theorem on_end_twice_exports_twice (b : ExpBeh) (s : PySpan)
    (hr : s.isReadable = true) (h1 : b.raise1 = false) (h2 : b.raise2 = false) :
    on_end_twice b s = [[s], [s]] ∧ on_end b s = .ok (s, [[s]]) := by
  have h := on_end_trace_eval b s hr h1 h2
  refine ⟨?_, h⟩
  simp [on_end_twice, h]

/-- Claim C7 witness: the amended statement at the concrete ended span. -/
theorem on_end_twice_exports_twice_witness :
    endedSpan.isReadable = true ∧ behOk.raise1 = false ∧ behOk.raise2 = false ∧
      (on_end_twice behOk endedSpan = [[endedSpan], [endedSpan]] ∧
        on_end behOk endedSpan = .ok (endedSpan, [[endedSpan]])) :=
  ⟨rfl, rfl, rfl, on_end_twice_exports_twice behOk endedSpan rfl rfl rfl⟩

/-- A span of 100.4 ms: end − start = 100,400,000 ns. -/
def borderlineSpan : PySpan :=
  { isReadable := true, name := "border", start_time := some 0,
    end_time := some 100400000, status := none, resource := none,
    attributes := [], setAttrRaises := false }

/-- Claim C4 counterexample: at end − start = 100,400,000 ns the duration in
whole milliseconds is 100, which does not exceed 100, so the claim says the
span is not slow; but the code divides with true division (100.4 > 100) and
logs it slow. -/
theorem slow_whole_ms_counterexample :
    (should_process_span borderlineSpan).2.slowLogged = true ∧
      spec_slow_whole_ms borderlineSpan = false := by
  constructor
  · show decide ((((100400000 : ℤ) - 0 : ℤ) : ℚ) / 1000000 > 100) = true
    rw [decide_eq_true_eq]
    norm_num
  · decide

/-- Claim C4 amended: the classification block never aborts (the function
still returns `True` for every input, missing or negative durations
included), and the span is logged slow exactly when both timestamps are
present and end − start exceeds 100,000,000 ns — i.e. when the fractional
millisecond duration (end − start)/1,000,000 of line 82 (true division, not
whole milliseconds) exceeds 100; a missing timestamp makes line 82 raise,
which is caught (no slow log), and a negative duration is simply not slow. -/
theorem slow_iff_exact_division (s : PySpan) :
    (should_process_span s).1 = true ∧
    ((should_process_span s).2.slowLogged = true ↔
      ∃ st en : Int, s.start_time = some st ∧ s.end_time = some en ∧
        100000000 < en - st) := by
  refine ⟨rfl, ?_⟩
  unfold should_process_span duration_ms
  cases hst : s.start_time with
  | none => simp [hst]
  | some st =>
    cases hen : s.end_time with
    | none => simp [hen]
    | some en =>
      simp only [hst, hen, Option.some.injEq, decide_eq_true_eq, gt_iff_lt]
      constructor
      · intro h
        refine ⟨st, en, rfl, rfl, ?_⟩
        rw [lt_div_iff₀ (by norm_num : (0 : ℚ) < 1000000)] at h
        exact_mod_cast h
      · rintro ⟨st2, en2, hst2, hen2, hlt⟩
        cases hst2
        cases hen2
        rw [lt_div_iff₀ (by norm_num : (0 : ℚ) < 1000000)]
        exact_mod_cast hlt

theorem pyDictGet_append_last (xs : List (String × AttrVal)) (k : String) (v : AttrVal) :
    pyDictGet (xs ++ [(k, v)]) k = some v := by
  simp [pyDictGet, List.find?]

theorem pyDictGet_append_ne (xs : List (String × AttrVal)) (k k2 : String) (v : AttrVal)
    (h : (k2 == k) = false) :
    pyDictGet (xs ++ [(k2, v)]) k = pyDictGet xs k := by
  simp [pyDictGet, List.find?, h]

/-- On every control path, the resource block either leaves the span exactly
as it was or appends one `custom.service` binding to its attributes. -/
theorem resource_block_shape (t : PySpan) :
    pyTry (on_start_resource_block t) = t ∨
      ∃ v, pyTry (on_start_resource_block t) =
        { t with attributes := t.attributes ++ [("custom.service", v)] } := by
  unfold on_start_resource_block
  cases hres : t.resource with
  | none => exact Or.inl rfl
  | some r =>
    cases hb1 : r.truthyRes with
    | false => simp [hb1, pyTry]
    | true =>
      cases hb2 : r.hasAttributesAttr with
      | false => simp [hb1, hb2, pyTry]
      | true =>
        cases hb3 : r.getRaises with
        | true => simp [hb1, hb2, hb3, pyTry]
        | false =>
          cases hget : pyDictGet r.attributes "service.name" with
          | none => simp [hb1, hb2, hb3, hget, pyTry]
          | some v =>
            cases htr : v.truthy with
            | false => simp [hb1, hb2, hb3, hget, htr, pyTry]
            | true =>
              cases hsa : t.setAttrRaises with
              | true => simp [hb1, hb2, hb3, hget, htr, hsa, pyTry, set_attribute]
              | false =>
                refine Or.inr ⟨v, ?_⟩
                simp [hb1, hb2, hb3, hget, htr, hsa, hres, pyTry, set_attribute]

/-- The resource block leaves the span's attribute list unchanged or appends
one `custom.service` binding, on every control path. -/
theorem resource_block_attributes (t : PySpan) :
    (pyTry (on_start_resource_block t)).attributes = t.attributes ∨
      ∃ v, (pyTry (on_start_resource_block t)).attributes =
        t.attributes ++ [("custom.service", v)] := by
  rcases resource_block_shape t with hs | ⟨v, hs⟩
  · exact Or.inl (by rw [hs])
  · exact Or.inr ⟨v, by rw [hs]⟩

/-- Lookup of any key other than `custom.service` is unchanged by the
resource block. -/
theorem resource_block_lookup_other (t : PySpan) (k : String)
    (hk : (("custom.service" : String) == k) = false) :
    pyDictGet (pyTry (on_start_resource_block t)).attributes k =
      pyDictGet t.attributes k := by
  rcases resource_block_attributes t with ha | ⟨v0, ha⟩
  · rw [ha]
  · rw [ha, pyDictGet_append_ne _ _ _ _ hk]

/-- When the resource is present, truthy, carries a well-formed attribute
mapping holding a truthy `service.name`, and the span's `set_attribute`
works, the resource block appends exactly the `custom.service` binding. -/
theorem resource_block_service (t : PySpan) (res : Resource) (v : AttrVal)
    (hres : t.resource = some res) (h1 : res.truthyRes = true)
    (h2 : res.hasAttributesAttr = true) (h3 : res.getRaises = false)
    (hget : pyDictGet res.attributes "service.name" = some v)
    (htr : v.truthy = true) (hsa : t.setAttrRaises = false) :
    (pyTry (on_start_resource_block t)).attributes =
      t.attributes ++ [("custom.service", v)] := by
  unfold pyTry on_start_resource_block set_attribute
  rw [hres]
  simp [h1, h2, h3, hget, htr, hsa]

/-- The resource block never changes the span's resource, on any path. -/
theorem resource_block_resource (t : PySpan) :
    (pyTry (on_start_resource_block t)).resource = t.resource := by
  rcases resource_block_shape t with hs | ⟨v, hs⟩ <;> rw [hs]

/-- On a span whose `set_attribute` works, `on_start` reduces to the resource
block applied after the two processor-identifying attributes are appended. -/
theorem on_start_eval (s : PySpan) (h : s.setAttrRaises = false) :
    on_start s = .ok (pyTry (on_start_resource_block
      { s with attributes := s.attributes ++ [("custom.processed", .bool true)]
          ++ [("custom.processor.version", .str "1.0.0")] })) := by
  unfold on_start on_start_body catch_all set_attribute
  simp [h]

/-- Claim C8: whenever the span object's `set_attribute` works, `on_start`
returns normally and the resulting span carries `custom.processed = True` and
`custom.processor.version = "1.0.0"`; and whenever the span's resource is
present, truthy, and its well-formed attribute mapping holds a truthy
`service.name`, that value is copied onto the span as `custom.service`.
Nothing is assumed about the resource for the first two attributes, so a
malformed, absent or inaccessible resource still leaves `on_start`
succeeding with them set. -/
theorem on_start_enrichment (s : PySpan) (h : s.setAttrRaises = false) :
    ∃ r, on_start s = .ok r ∧
      pyDictGet r.attributes "custom.processed" = some (.bool true) ∧
      pyDictGet r.attributes "custom.processor.version" = some (.str "1.0.0") ∧
      ∀ res v, s.resource = some res → res.truthyRes = true →
        res.hasAttributesAttr = true → res.getRaises = false →
        pyDictGet res.attributes "service.name" = some v → v.truthy = true →
        pyDictGet r.attributes "custom.service" = some v := by
  refine ⟨_, on_start_eval s h, ?_, ?_, ?_⟩
  · rw [resource_block_lookup_other _ _ (by decide)]
    show pyDictGet ((s.attributes ++ [("custom.processed", .bool true)])
        ++ [("custom.processor.version", .str "1.0.0")]) "custom.processed" = _
    rw [pyDictGet_append_ne _ _ _ _ (by decide), pyDictGet_append_last]
  · rw [resource_block_lookup_other _ _ (by decide)]
    show pyDictGet ((s.attributes ++ [("custom.processed", .bool true)])
        ++ [("custom.processor.version", .str "1.0.0")]) "custom.processor.version" = _
    rw [pyDictGet_append_last]
  · intro res v hres h1 h2 h3 hget htr
    have hstep := resource_block_service
      ({ s with attributes := s.attributes ++ [("custom.processed", AttrVal.bool true)]
          ++ [("custom.processor.version", AttrVal.str "1.0.0")] })
      res v hres h1 h2 h3 hget htr h
    rw [hstep, pyDictGet_append_last]

/-- A concrete healthy span whose resource carries a service name. -/
def serviceSpan : PySpan :=
  { isReadable := true, name := "svc-span", start_time := none,
    end_time := none, status := none,
    resource := some { truthyRes := true, hasAttributesAttr := true,
                       attributes := [("service.name", .str "checkout")],
                       getRaises := false },
    attributes := [], setAttrRaises := false }

/-- Claim C8 witness: the concrete span is enriched by `on_start`. -/
theorem on_start_enrichment_witness :
    serviceSpan.setAttrRaises = false ∧
      ∃ r, on_start serviceSpan = .ok r ∧
        pyDictGet r.attributes "custom.processed" = some (.bool true) ∧
        pyDictGet r.attributes "custom.processor.version" = some (.str "1.0.0") ∧
        ∀ res v, serviceSpan.resource = some res → res.truthyRes = true →
          res.hasAttributesAttr = true → res.getRaises = false →
          pyDictGet res.attributes "service.name" = some v → v.truthy = true →
          pyDictGet r.attributes "custom.service" = some v :=
  ⟨rfl, on_start_enrichment serviceSpan rfl⟩

/-- Claim C9: the processor only reads the span's resource, it never writes
it: on every path (exception paths included) `on_start` returns a span with
the same resource object, and `on_end` carries the frozen record through
unchanged (the hook contains no write to the span; `shutdown` and
`force_flush` do not receive spans at all, as their embeddings show). -/
theorem resource_never_mutated (s : PySpan) (b : ExpBeh) :
    (∃ r, on_start s = .ok r ∧ r.resource = s.resource) ∧
    (∃ c, on_end b s = .ok (s, c)) := by
  constructor
  · unfold on_start on_start_body catch_all set_attribute
    by_cases h : s.setAttrRaises
    · simp [h]
    · simp [h]
      exact resource_block_resource _
  · unfold on_end
    split
    · exact ⟨_, rfl⟩
    · exact ⟨_, rfl⟩

end CustomSpanProcessor
